import Mathlib

/-!
Verification of the Remote-PiCam agent (`src/picam.py`, `src/main.py`).

The development shallowly embeds the session protocol of `NetworkPiCam`:
the settings model and its default snapshot (`__init__`), the settings
synchronizer (`service_settings` / `write_settings`), the frame framing of
`send_image`, and the session lifecycle (`connect`, `send_image`,
`disconnect`, `is_connected`).  Hardware and transport collaborators
(picamera, PCA9685, the socket) are modelled as explicit acceptance /
failure parameters, since the Python code only observes them through
success or a raised exception.
-/

namespace PiCam

/-- A bounded setting: a `min`/`max`/`value` dictionary in `self.settings`. -/
structure BoundedSetting where
  min : Int
  max : Int
  value : Int
  deriving Repr, DecidableEq

/-- An enumerated setting: a `selected`/`available` dictionary in `self.settings`. -/
structure EnumSetting (α : Type) where
  selected : α
  available : List α
  deriving Repr, DecidableEq

/-- A resolution value.  In the source the default `selected` is the tuple
`(720, 480)` while the `available` list holds strings such as `"720x480"`,
so the field genuinely ranges over both shapes. -/
inductive ResVal where
  | str (s : String)
  | pair (w h : Nat)
  deriving Repr, DecidableEq

/-- The `servos` entry of `self.settings`: an `enable` flag plus two bounded
angle settings. -/
structure Servos where
  enable : Bool
  pan : BoundedSetting
  tilt : BoundedSetting
  deriving Repr, DecidableEq

/-- The settings snapshot `self.settings` of `NetworkPiCam`. -/
structure Settings where
  awb_mode : EnumSetting String
  brightness : BoundedSetting
  contrast : BoundedSetting
  effect : EnumSetting String
  iso : EnumSetting Int
  resolution : EnumSetting ResVal
  saturation : BoundedSetting
  servos : Servos
  deriving Repr, DecidableEq

/-- The `available` list of the `resolution` setting, from `__init__`
(every entry in the source is a string). -/
def defaultResolutions : List ResVal :=
  List.map ResVal.str
    ["128x96", "160x120", "160x144", "176x144", "180x132", "180x135",
     "192x144", "234x60", "256x192", "320x200", "320x240", "320x288",
     "320x400", "352x288", "352x240", "384x256", "384x288", "392x72",
     "400x300", "460x55", "480x320", "468x32", "468x60", "512x342",
     "512x384", "544x372", "640x350", "640x480", "640x576", "704x576",
     "720x350", "720x400", "720x480", "720x483", "720x484", "720x486",
     "720x540", "720x576", "729x348", "768x576", "800x600", "832x624",
     "856x480", "896x600", "960x720", "1024x576", "1024x768", "1080x720",
     "1152x768", "1152x864", "1152x870", "1152x900", "1280x720", "1280x800",
     "1280x854", "1280x960", "1280x992", "1280x1024", "1360x766",
     "1365x768", "1366x768", "1365x1024", "1400x788", "1400x1050",
     "1440x900", "1520x856", "1536x1536", "1600x900", "1600x1024",
     "1600x1200", "1792x1120", "1792x1344", "1824x1128", "1824x1368",
     "1856x1392", "1920x1080", "1920x1200", "1920x1440", "2000x1280",
     "2048x1152", "2048x1536", "2048x2048", "2500x1340", "2560x1600",
     "3072x2252", "3600x2400"]

/-- The initial `self.settings` dictionary built in `NetworkPiCam.__init__`,
parameterized by the `pan_tilt` constructor argument (stored into
`self.settings["servos"]["enable"]`). -/
def defaultSettings (panTilt : Bool) : Settings where
  awb_mode :=
    { selected := "auto",
      available := ["off", "auto", "sunlight", "cloudy", "shade", "tungsten",
                    "fluorescent", "incandescent", "flash", "horizon"] }
  brightness := { min := 0, max := 100, value := 50 }
  contrast := { min := -100, max := 100, value := 0 }
  effect :=
    { selected := "none",
      available := ["none", "negative", "solarize", "sketch", "denoise",
                    "emboss", "oilpaint", "hatch", "gpen", "pastel",
                    "watercolor", "film", "blur", "saturation", "colorswap",
                    "washedout", "posterise", "colorpoint", "colorbalance",
                    "cartoon", "deinterlace1", "deinterlace2"] }
  iso := { selected := 0, available := [0, 100, 200, 320, 400, 500, 640, 800] }
  resolution := { selected := .pair 720 480, available := defaultResolutions }
  saturation := { min := -100, max := 100, value := 0 }
  servos :=
    { enable := panTilt,
      pan := { min := 0, max := 180, value := 90 },
      tilt := { min := 0, max := 60, value := 30 } }

/-- Shape invariant of a bounded setting: `min ≤ value ≤ max`. -/
def BoundedInv (b : BoundedSetting) : Prop :=
  b.min ≤ b.value ∧ b.value ≤ b.max

instance (b : BoundedSetting) : Decidable (BoundedInv b) := by
  unfold BoundedInv; infer_instance

/-- Shape invariant of an enumerated setting: `selected` is a member of
`available`. -/
def EnumInv {α : Type} [DecidableEq α] (e : EnumSetting α) : Prop :=
  e.selected ∈ e.available

instance {α : Type} [DecidableEq α] (e : EnumSetting α) :
    Decidable (EnumInv e) := by
  unfold EnumInv; infer_instance

/-- Shape invariant of a whole snapshot: every enumerated setting has
`selected ∈ available` and every bounded setting has `min ≤ value ≤ max`. -/
def SettingsInv (s : Settings) : Prop :=
  EnumInv s.awb_mode ∧ BoundedInv s.brightness ∧ BoundedInv s.contrast ∧
  EnumInv s.effect ∧ EnumInv s.iso ∧ EnumInv s.resolution ∧
  BoundedInv s.saturation ∧ BoundedInv s.servos.pan ∧ BoundedInv s.servos.tilt

instance (s : Settings) : Decidable (SettingsInv s) := by
  unfold SettingsInv; infer_instance

/-- The camera collaborator (`self._cam`, a picamera object), modelled by
which values each property assignment in `write_settings` accepts; an
assignment the camera does not accept raises an exception in the Python
code. -/
structure Camera where
  awbOk : String → Bool
  brightnessOk : Int → Bool
  contrastOk : Int → Bool
  effectOk : String → Bool
  isoOk : Int → Bool
  resolutionOk : ResVal → Bool
  saturationOk : Int → Bool

/-- The servo driver collaborator (`self._driver`, a PCA9685 object),
modelled by which `setRotationAngle(channel, angle)` calls succeed. -/
structure ServoDriver where
  angleOk : Nat → Int → Bool

/-- Whether `NetworkPiCam.write_settings` returns without raising: every
property assignment pushed into the camera succeeds and, when
`self._pan_tilting`, both `setRotationAngle` calls succeed.  The `&&`
chain mirrors the statement order of the method (an exception aborts at
the first failing assignment). -/
def writeSettingsOk (panTilting : Bool) (cam : Camera) (drv : ServoDriver)
    (s : Settings) : Bool :=
  cam.awbOk s.awb_mode.selected &&
  cam.brightnessOk s.brightness.value &&
  cam.contrastOk s.contrast.value &&
  cam.effectOk s.effect.selected &&
  cam.isoOk s.iso.selected &&
  cam.resolutionOk s.resolution.selected &&
  cam.saturationOk s.saturation.value &&
  (if panTilting then
    drv.angleOk 1 s.servos.pan.value && drv.angleOk 0 s.servos.tilt.value
   else true)

/-- One call of `NetworkPiCam.service_settings`, as a function of the
harness state it reads and writes.  `incoming` is the value returned by
the non-blocking `nw0.wait_for_message_from(self._server_address,
wait_for_s=0)` (`none` when nothing is pending).  The result is the new
`self.settings` together with the reply sent via `nw0.send_reply_to`
(`none` when no reply is sent).  The body mirrors the source: the
pan/tilt gate compares only the servo `value` fields, the assignment
`self.settings = result` happens before `write_settings` is attempted,
and the reply is built from `self.settings` after that assignment. -/
def serviceSettings (panTilting : Bool) (cam : Camera) (drv : ServoDriver)
    (settings : Settings) (incoming : Option Settings) :
    Settings × Option (Bool × Settings) :=
  match incoming with
  | none => (settings, none)
  | some result =>
    if ¬panTilting ∧ settings.servos.pan.value ≠ result.servos.pan.value then
      (settings, some (false, settings))
    else if ¬panTilting ∧ settings.servos.tilt.value ≠ result.servos.tilt.value then
      (settings, some (false, settings))
    else
      let settings := result
      if writeSettingsOk panTilting cam drv settings then
        (settings, some (true, settings))
      else
        (settings, some (false, settings))

/-- The 4-byte little-endian encoding written by
`struct.pack("<L", img_stream.tell())` in `send_image` (for values below
`2 ^ 32`, where `struct.pack` does not raise). -/
def packLE4 (n : Nat) : List Nat :=
  [n % 256, n / 256 % 256, n / 256 ^ 2 % 256, n / 256 ^ 3 % 256]

/-- The byte sequence `send_image` writes to the frame channel for one
payload: the 4-byte little-endian length prefix followed by the payload
bytes (`self._connection.write(struct.pack(...))` then
`self._connection.write(img_stream.read())`). -/
def sendFrame (payload : List Nat) : List Nat :=
  packLE4 payload.length ++ payload

/-- The receiver side of the wire contract: read exactly 4 bytes,
interpret them as a little-endian length `n`, then read exactly `n`
bytes; the rest of the stream is left unconsumed.  Fails when the stream
is too short. -/
def recvFrame (stream : List Nat) : Option (List Nat × List Nat) :=
  match stream with
  | b0 :: b1 :: b2 :: b3 :: rest =>
    let n := b0 + 256 * (b1 + 256 * (b2 + 256 * b3))
    if n ≤ rest.length then some (rest.take n, rest.drop n) else none
  | _ => none

/-- The mutable fields of a `NetworkPiCam` object that the lifecycle
methods read and write: `_cam_name`, `_port`, `_pan_tilting`,
`_connected`, `self.settings`, plus whether the frame channel
(`_connection` / `_client_socket`) is open and whether the PCA9685
driver has been initialized and not yet released. -/
structure SessionState where
  camName : String
  port : Nat
  panTilting : Bool
  connected : Bool
  channelOpen : Bool
  driverActive : Bool
  settings : Settings
  deriving Repr, DecidableEq

/-- Observable side effects of `connect` on the collaborators, in the
order they are performed. -/
inductive Effect where
  | advertised (name : String)
  | repliedSnapshot (s : Settings)
  | driverInitialized
  | wroteSettings (s : Settings)
  | socketConnected (address : String) (port : Nat)
  deriving Repr, DecidableEq

/-- Outcome of the `nw0.advertise` call in `connect`: either
`SocketTimedOutError` was raised within the timeout, or a peer made
contact and `nw0.wait_for_message_from` yielded its address. -/
inductive Discovery where
  | timeout
  | contact (address : String)
  deriving Repr, DecidableEq

/-- How a `connect` call terminates: returning `False` after a discovery
timeout, returning `True` after a full handshake, or propagating an
exception raised by `write_settings` or the socket connect. -/
inductive ConnectResult where
  | timedOut
  | ok
  | raised
  deriving Repr, DecidableEq

/-- One call of `NetworkPiCam.connect`, following the source line by
line.  `d` is the discovery outcome; `sockOk` is whether
`self._client_socket.connect((address, self._port))` succeeds.  On
timeout the method returns `False` with nothing else done.  On contact it
replies to the peer with the current snapshot, initializes the servo
driver when `self._pan_tilting`, calls `write_settings()` (which raises
when a collaborator rejects a value — `connect` does not catch this),
then opens the frame socket and sets `self._connected = True`. -/
def connect (d : Discovery) (cam : Camera) (drv : ServoDriver)
    (sockOk : Bool) (st : SessionState) :
    SessionState × ConnectResult × List Effect :=
  match d with
  | .timeout => (st, .timedOut, [.advertised st.camName])
  | .contact address =>
    let effs := [Effect.advertised st.camName, .repliedSnapshot st.settings]
    let st := if st.panTilting then { st with driverActive := true } else st
    let effs := if st.panTilting then effs ++ [.driverInitialized] else effs
    if writeSettingsOk st.panTilting cam drv st.settings then
      let effs := effs ++ [.wroteSettings st.settings]
      if sockOk then
        ({ st with channelOpen := true, connected := true }, .ok,
         effs ++ [.socketConnected address st.port])
      else
        (st, .raised, effs)
    else
      (st, .raised, effs)

/-- One call of `NetworkPiCam.disconnect`.  `closeRaises` is whether
`self._connection.close()` raises an `OSError` (a buffered writer flushes
on close, so a broken pipe surfaces here).  When it does, the remaining
statements — closing the client socket, clearing `self._connected`, and
`self._driver.exit_PCA9685()` — are skipped and the exception propagates
(the returned flag is `false`).  Otherwise the channel is closed, the
session is marked disconnected, and the driver is released when
`self._pan_tilting`. -/
def disconnect (closeRaises : Bool) (st : SessionState) :
    SessionState × Bool :=
  if closeRaises then
    (st, false)
  else
    ({ st with
        connected := false
        channelOpen := false
        driverActive := if st.panTilting then false else st.driverActive },
     true)

/-- How a `send_image` call terminates: `notConnectedError` when the
method raises `ValueError("Not connected")`, `ok` when it returns `True`,
`sendFailed` when it returns `False` after an exception in the
capture/write body. -/
inductive SendResult where
  | notConnectedError
  | ok
  | sendFailed
  deriving Repr, DecidableEq

/-- One call of `NetworkPiCam.send_image`.  `bodyOk` is whether the
capture/rotate/encode/write body runs without an exception; `closeRaises`
parameterizes the `disconnect()` attempted in the failure path (its
`OSError` is swallowed by `except OSError: pass`, after which
`self._connected = False` still runs).  The returned `Bool` records
whether the capture/write body was entered at all: the
`raise ValueError("Not connected")` guard precedes it, so a disconnected
session never reaches capture or the frame channel. -/
def sendImage (bodyOk closeRaises : Bool) (st : SessionState) :
    SessionState × SendResult × Bool :=
  if ¬st.connected then
    (st, .notConnectedError, false)
  else if bodyOk then
    (st, .ok, true)
  else
    let (st1, _) := disconnect closeRaises st
    ({ st1 with connected := false }, .sendFailed, true)

/-- One call of `NetworkPiCam.service_settings` lifted to the session
state: the method reads `self._pan_tilting` and `self.settings` and
writes `self.settings`, and notably never consults `self._connected`. -/
def serviceSettingsS (cam : Camera) (drv : ServoDriver)
    (st : SessionState) (incoming : Option Settings) :
    SessionState × Option (Bool × Settings) :=
  let (s, reply) := serviceSettings st.panTilting cam drv st.settings incoming
  ({ st with settings := s }, reply)

/-- A camera model with the acceptance ranges documented for the
underlying picamera properties (which coincide with the bounds and
choice lists of the default snapshot): a hardware-model fixture used to
instantiate theorems, not a translation of repository code. -/
def strictCamera : Camera where
  awbOk m := m ∈ (defaultSettings true).awb_mode.available
  brightnessOk v := 0 ≤ v && v ≤ 100
  contrastOk v := -100 ≤ v && v ≤ 100
  effectOk e := e ∈ (defaultSettings true).effect.available
  isoOk v := 0 ≤ v && v ≤ 1600
  resolutionOk _ := true
  saturationOk v := -100 ≤ v && v ≤ 100

/-- A servo-driver model accepting angles between 0 and 180 degrees: a
hardware-model fixture used to instantiate theorems. -/
def okDriver : ServoDriver where
  angleOk _ v := 0 ≤ v && v ≤ 180

/-- A request equal to the default snapshot except that the brightness
value is 150, outside the range the camera accepts. -/
def badBrightnessRequest : Settings :=
  { defaultSettings true with
      brightness := { min := 0, max := 100, value := 150 } }

/-- A request whose brightness carries tampered bounds `min = max = 60`
around the in-range value 50: the hardware accepts the value (it only
ever sees `value`, never the request's `min`/`max`), yet the request
violates the shape invariant. -/
def skewedBoundsRequest : Settings :=
  { defaultSettings true with
      brightness := { min := 60, max := 60, value := 50 } }

/-- A well-formed request: default snapshot with brightness 80 and a
string resolution drawn from the available list; it satisfies the shape
invariant and every hardware model used here accepts it. -/
def goodRequest : Settings :=
  { defaultSettings true with
      brightness := { min := 0, max := 100, value := 80 }
      resolution := { selected := .str "720x480",
                      available := defaultResolutions } }

/-- A request that moves the servo pan value from 90 to 100 while
leaving everything else at the defaults of a pan/tilt-disabled
snapshot. -/
def badPanRequest : Settings :=
  { defaultSettings false with
      servos := { enable := false,
                  pan := { min := 0, max := 180, value := 100 },
                  tilt := { min := 0, max := 60, value := 30 } } }

/-- A connected streaming session with pan/tilt enabled. -/
def connSt : SessionState where
  camName := "picam"
  port := 7896
  panTilting := true
  connected := true
  channelOpen := true
  driverActive := true
  settings := defaultSettings true

/-- A freshly constructed, not yet connected session with pan/tilt
enabled. -/
def freshSt : SessionState where
  camName := "picam"
  port := 7896
  panTilting := true
  connected := false
  channelOpen := false
  driverActive := false
  settings := defaultSettings true

end PiCam

namespace PiCam

/-- Unfolding equation of `serviceSettings` on a pending request. -/
theorem serviceSettings_some_eq (pt : Bool) (cam : Camera)
    (drv : ServoDriver) (settings result : Settings) :
    serviceSettings pt cam drv settings (some result) =
      if ¬pt = true ∧ settings.servos.pan.value ≠ result.servos.pan.value
      then (settings, some (false, settings))
      else if ¬pt = true ∧
          settings.servos.tilt.value ≠ result.servos.tilt.value
      then (settings, some (false, settings))
      else if writeSettingsOk pt cam drv result = true
      then (result, some (true, result))
      else (result, some (false, result)) := rfl

/-- C1: evaluation of `service_settings` at the failing input.  With the
default snapshot current and a request whose brightness value 150 is
rejected by the camera, the code ends the call with the REQUEST as the
current snapshot and replies `(false, request)`: the assignment
`self.settings = result` precedes `write_settings`, so the failed update
is partially committed instead of rolled back to the previous
snapshot. -/
theorem c1_failed_apply_keeps_request :
    serviceSettings true strictCamera okDriver (defaultSettings true)
        (some badBrightnessRequest) =
      (badBrightnessRequest, some (false, badBrightnessRequest)) ∧
    badBrightnessRequest ≠ defaultSettings true := by
  refine ⟨rfl, fun h => ?_⟩
  have hv : badBrightnessRequest.brightness.value =
      (defaultSettings true).brightness.value := by rw [h]
  revert hv
  decide

/-- C2 counterexample: a successful apply whose resulting snapshot
violates the shape invariant.  The request carries tampered brightness
bounds `min = max = 60` around the accepted value 50; every hardware
write succeeds, `service_settings` replies `(true, request)`, and the
new snapshot has `brightness.value < brightness.min`. -/
theorem c2_counterexample :
    serviceSettings true strictCamera okDriver (defaultSettings true)
        (some skewedBoundsRequest) =
      (skewedBoundsRequest, some (true, skewedBoundsRequest)) ∧
    ¬ SettingsInv skewedBoundsRequest := by
  refine ⟨rfl, fun h => ?_⟩
  have hb := h.2.1
  revert hb
  decide

/-- C2 amended: after every successful apply the current snapshot equals
the request (and is the snapshot sent back in the reply), so the shape
invariant holds after a successful apply exactly when the request itself
satisfies it — `service_settings` performs no bounds or membership
validation of its own beyond what the hardware collaborators enforce on
the applied value fields. -/
theorem c2_success_snapshot_is_request (pt : Bool) (cam : Camera)
    (drv : ServoDriver) (prev r s2 rep : Settings)
    (h : serviceSettings pt cam drv prev (some r) = (s2, some (true, rep))) :
    s2 = r ∧ rep = r ∧ (SettingsInv r → SettingsInv s2) := by
  rw [serviceSettings_some_eq] at h
  split_ifs at h <;>
    simp only [Prod.mk.injEq, Option.some.injEq] at h
  · exact absurd h.2.1 (by simp)
  · exact absurd h.2.1 (by simp)
  · exact ⟨h.1.symm, h.2.2.symm, fun hi => h.1 ▸ hi⟩
  · exact absurd h.2.1 (by simp)

/-- C2 witness: instantiation of the amended theorem at the well-formed
brightness-80 request, which the hardware model accepts. -/
theorem c2_success_snapshot_is_request_witness :
    goodRequest = goodRequest ∧ goodRequest = goodRequest ∧
    SettingsInv goodRequest :=
  ⟨(c2_success_snapshot_is_request true strictCamera okDriver
      (defaultSettings true) goodRequest goodRequest goodRequest rfl).1,
   (c2_success_snapshot_is_request true strictCamera okDriver
      (defaultSettings true) goodRequest goodRequest goodRequest rfl).2.1,
   (c2_success_snapshot_is_request true strictCamera okDriver
      (defaultSettings true) goodRequest goodRequest goodRequest rfl).2.2
     (by decide)⟩

/-- C3: when pan/tilt is disabled and the request's servo pan or tilt
value differs from the current snapshot's, `service_settings` rejects
immediately: the snapshot is unchanged and the reply is
`(false, current snapshot)`. -/
theorem c3_gate_rejects (cam : Camera) (drv : ServoDriver)
    (snap r : Settings)
    (h : snap.servos.pan.value ≠ r.servos.pan.value ∨
         snap.servos.tilt.value ≠ r.servos.tilt.value) :
    serviceSettings false cam drv snap (some r) =
      (snap, some (false, snap)) := by
  rw [serviceSettings_some_eq]
  by_cases hp : snap.servos.pan.value ≠ r.servos.pan.value
  · rw [if_pos ⟨by decide, hp⟩]
  · have ht : snap.servos.tilt.value ≠ r.servos.tilt.value := by
      rcases h with h | h
      · exact absurd h hp
      · exact h
    rw [if_neg (fun hc => hp hc.2), if_pos ⟨by decide, ht⟩]

/-- C3 witness: a concrete rejected request (pan moved from 90 to 100
while pan/tilt is disabled) leaving the default snapshot unchanged. -/
theorem c3_gate_rejects_witness :
    ((defaultSettings false).servos.pan.value ≠
        badPanRequest.servos.pan.value ∨
     (defaultSettings false).servos.tilt.value ≠
        badPanRequest.servos.tilt.value) ∧
    serviceSettings false strictCamera okDriver (defaultSettings false)
        (some badPanRequest) =
      (defaultSettings false, some (false, defaultSettings false)) :=
  ⟨Or.inl (by decide),
   c3_gate_rejects strictCamera okDriver (defaultSettings false)
     badPanRequest (Or.inl (by decide))⟩

/-- C4: a request that passes the pan/tilt gate, satisfies the shape
invariant, and whose fields all apply successfully is accepted:
`service_settings` installs the request as the new current snapshot and
replies `(true, new snapshot)`. -/
theorem c4_valid_request_accepted (pt : Bool) (cam : Camera)
    (drv : ServoDriver) (prev r : Settings)
    (hgate : pt = true ∨
      (prev.servos.pan.value = r.servos.pan.value ∧
       prev.servos.tilt.value = r.servos.tilt.value))
    (_hinv : SettingsInv r)
    (hw : writeSettingsOk pt cam drv r = true) :
    serviceSettings pt cam drv prev (some r) = (r, some (true, r)) := by
  rw [serviceSettings_some_eq]
  have h1 : ¬(¬pt = true ∧ prev.servos.pan.value ≠ r.servos.pan.value) := by
    rcases hgate with h | h
    · simp [h]
    · simp [h.1]
  have h2 : ¬(¬pt = true ∧ prev.servos.tilt.value ≠ r.servos.tilt.value) := by
    rcases hgate with h | h
    · simp [h]
    · simp [h.2]
  rw [if_neg h1, if_neg h2, if_pos hw]

/-- C4 witness: the well-formed brightness-80 request applied to the
default snapshot under the hardware model, yielding acceptance with the
request as the new snapshot. -/
theorem c4_valid_request_accepted_witness :
    (true = true ∨
      ((defaultSettings true).servos.pan.value =
         goodRequest.servos.pan.value ∧
       (defaultSettings true).servos.tilt.value =
         goodRequest.servos.tilt.value)) ∧
    SettingsInv goodRequest ∧
    writeSettingsOk true strictCamera okDriver goodRequest = true ∧
    serviceSettings true strictCamera okDriver (defaultSettings true)
        (some goodRequest) = (goodRequest, some (true, goodRequest)) :=
  ⟨Or.inl rfl, by decide, by decide,
   c4_valid_request_accepted true strictCamera okDriver
     (defaultSettings true) goodRequest (Or.inl rfl) (by decide) (by decide)⟩

/-- Reassembling the four little-endian bytes of `packLE4 n` recovers
`n` whenever `n` fits in four bytes. -/
theorem le4_reassemble (n : Nat) (h : n < 2 ^ 32) :
    n % 256 + 256 * (n / 256 % 256 +
      256 * (n / 256 ^ 2 % 256 + 256 * (n / 256 ^ 3 % 256))) = n := by
  have h32 : n < 4294967296 := by norm_num at h ⊢; exact h
  have e2 : n / 256 ^ 2 = n / 65536 := by norm_num
  have e3 : n / 256 ^ 3 = n / 16777216 := by norm_num
  rw [e2, e3]
  omega

/-- C5: frame framing.  For a payload of length below `2 ^ 32`,
`send_image` writes exactly the 4-byte little-endian length prefix
followed by exactly the payload bytes, and the receiver contract — read
4 bytes, interpret as a length `n`, then read exactly `n` bytes —
reproduces the payload and leaves the rest of the stream unconsumed. -/
theorem c5_frame_roundtrip (payload rest : List Nat)
    (h : payload.length < 2 ^ 32) :
    (sendFrame payload).take 4 = packLE4 payload.length ∧
    (sendFrame payload).drop 4 = payload ∧
    recvFrame (sendFrame payload ++ rest) = some (payload, rest) := by
  refine ⟨?_, ?_, ?_⟩
  · simp [sendFrame, packLE4]
  · simp [sendFrame, packLE4]
  · have hn := le4_reassemble payload.length h
    simp only [sendFrame, packLE4, List.cons_append, List.nil_append,
      recvFrame, hn]
    rw [if_pos (by simp)]
    rw [List.take_left, List.drop_left]

/-- C5 witness: the concrete payload `[7, 8, 9]` followed by a one-byte
remainder round-trips. -/
theorem c5_frame_roundtrip_witness :
    ([7, 8, 9] : List Nat).length < 2 ^ 32 ∧
    ((sendFrame [7, 8, 9]).take 4 = packLE4 ([7, 8, 9] : List Nat).length ∧
     (sendFrame [7, 8, 9]).drop 4 = [7, 8, 9] ∧
     recvFrame (sendFrame [7, 8, 9] ++ [1]) = some ([7, 8, 9], [1])) :=
  ⟨by norm_num, c5_frame_roundtrip [7, 8, 9] [1] (by norm_num)⟩

/-- C6 counterexample: a send failure leaves the session Disconnected,
yet `service_settings` — which never consults `self._connected` — still
processes a pending settings message on the very same state, installing
the request and replying `(true, request)`.  A poll therefore still
succeeds after the session is Disconnected. -/
theorem c6_poll_succeeds_after_disconnect :
    (sendImage false false connSt).2.1 = .sendFailed ∧
    (sendImage false false connSt).1.connected = false ∧
    (serviceSettingsS strictCamera okDriver (sendImage false false connSt).1
        (some goodRequest)).2 = some (true, goodRequest) ∧
    (serviceSettingsS strictCamera okDriver (sendImage false false connSt).1
        (some goodRequest)).1.settings = goodRequest :=
  ⟨rfl, rfl, rfl, rfl⟩

/-- C6 amended: a transport error during send is terminal for the
session — the session transitions to Disconnected, the failure is not
retried at this layer, the channel is closed whenever closing it does not
itself raise, and afterwards no send succeeds: every further
`send_image` call raises before touching capture or the channel.
(`service_settings`, however, does not consult the connection state, so
a pending settings message may still be processed after
disconnection.) -/
theorem c6_send_failure_terminal (closeRaises : Bool) (st : SessionState)
    (hconn : st.connected = true) :
    (sendImage false closeRaises st).2.1 = .sendFailed ∧
    (sendImage false closeRaises st).1.connected = false ∧
    (closeRaises = false →
      (sendImage false closeRaises st).1.channelOpen = false) ∧
    ∀ b c, sendImage b c (sendImage false closeRaises st).1 =
      ((sendImage false closeRaises st).1, .notConnectedError, false) := by
  simp only [sendImage, disconnect, hconn]
  cases closeRaises <;> simp

/-- C6 witness: the amended theorem instantiated at the connected
session with a non-raising close. -/
theorem c6_send_failure_terminal_witness :
    (sendImage false false connSt).2.1 = .sendFailed ∧
    (sendImage false false connSt).1.connected = false ∧
    (sendImage false false connSt).1.channelOpen = false ∧
    sendImage true false (sendImage false false connSt).1 =
      ((sendImage false false connSt).1, .notConnectedError, false) :=
  ⟨(c6_send_failure_terminal false connSt rfl).1,
   (c6_send_failure_terminal false connSt rfl).2.1,
   (c6_send_failure_terminal false connSt rfl).2.2.1 rfl,
   (c6_send_failure_terminal false connSt rfl).2.2.2 true false⟩

/-- C7 counterexample: a broken-pipe style failure where closing the
buffered connection raises `OSError` during the send-failure path.  The
session does transition to Disconnected, pan/tilt was enabled and the
driver active, yet neither the channel nor the servo driver is
released: `disconnect` aborts at `self._connection.close()`, skipping
`self._driver.exit_PCA9685()`. -/
theorem c7_release_skipped_when_close_raises :
    connSt.panTilting = true ∧ connSt.driverActive = true ∧
    (sendImage false true connSt).2.1 = .sendFailed ∧
    (sendImage false true connSt).1.connected = false ∧
    (sendImage false true connSt).1.driverActive = true ∧
    (sendImage false true connSt).1.channelOpen = true :=
  ⟨rfl, rfl, rfl, rfl, rfl, rfl⟩

/-- C7 amended: whenever closing the connection does not raise,
disconnection — explicit or via the send-failure path — closes the
transport channel, marks the session Disconnected, and releases the
servo driver when pan/tilt was enabled; when the close raises `OSError`,
the remaining release steps are skipped (the send-failure path still
marks the session Disconnected). -/
theorem c7_disconnect_releases (st : SessionState) :
    ((disconnect false st).1.channelOpen = false ∧
     (disconnect false st).1.connected = false ∧
     (st.panTilting = true → (disconnect false st).1.driverActive = false)) ∧
    (st.connected = true →
      (sendImage false false st).1.channelOpen = false ∧
      (sendImage false false st).1.connected = false ∧
      (st.panTilting = true →
        (sendImage false false st).1.driverActive = false)) := by
  constructor
  · refine ⟨rfl, rfl, fun hp => ?_⟩
    simp [disconnect, hp]
  · intro hc
    simp only [sendImage, disconnect, hc]
    refine ⟨rfl, rfl, fun hp => ?_⟩
    simp [hp]

/-- C7 witness: the amended theorem instantiated at the connected
pan/tilt session. -/
theorem c7_disconnect_releases_witness :
    (disconnect false connSt).1.channelOpen = false ∧
    (disconnect false connSt).1.driverActive = false ∧
    (sendImage false false connSt).1.channelOpen = false ∧
    (sendImage false false connSt).1.driverActive = false :=
  ⟨(c7_disconnect_releases connSt).1.1,
   (c7_disconnect_releases connSt).1.2.2 rfl,
   ((c7_disconnect_releases connSt).2 rfl).1,
   ((c7_disconnect_releases connSt).2 rfl).2.2 rfl⟩

/-- C8: when no peer makes contact within the timeout, `connect`
returns the unsuccessful result with the session state unchanged and no
side effect beyond the advertisement — it neither succeeds nor loops
internally — and the error is recoverable: re-invoking `connect` on the
same state with a peer contact (and collaborators that accept the
snapshot) succeeds. -/
theorem c8_timeout_recoverable (cam : Camera) (drv : ServoDriver)
    (sockOk : Bool) (st : SessionState) :
    connect .timeout cam drv sockOk st =
      (st, .timedOut, [.advertised st.camName]) ∧
    ∀ a, writeSettingsOk st.panTilting cam drv st.settings = true →
      (connect (.contact a) cam drv true st).2.1 = .ok ∧
      (connect (.contact a) cam drv true st).1.connected = true := by
  refine ⟨rfl, fun a hw => ?_⟩
  cases hpt : st.panTilting <;> rw [hpt] at hw <;> simp [connect, hpt, hw]

/-- C8 witness: a fresh session under the hardware model times out
recoverably and then connects on a subsequent contact. -/
theorem c8_timeout_recoverable_witness :
    connect .timeout strictCamera okDriver true freshSt =
      (freshSt, .timedOut, [.advertised freshSt.camName]) ∧
    (connect (.contact "10.0.0.2") strictCamera okDriver true
      freshSt).2.1 = .ok ∧
    (connect (.contact "10.0.0.2") strictCamera okDriver true
      freshSt).1.connected = true :=
  ⟨(c8_timeout_recoverable strictCamera okDriver true freshSt).1,
   ((c8_timeout_recoverable strictCamera okDriver true freshSt).2
      "10.0.0.2" (by decide)).1,
   ((c8_timeout_recoverable strictCamera okDriver true freshSt).2
      "10.0.0.2" (by decide)).2⟩

/-- C9: calling `send_image` on a session that is not connected raises
`ValueError("Not connected")` before the capture/write body is entered:
the state is unchanged, the result is the raised error, and the body
flag is `false` — nothing is captured and nothing is written to the
frame channel. -/
theorem c9_send_requires_connection (bodyOk closeRaises : Bool)
    (st : SessionState) (h : st.connected = false) :
    sendImage bodyOk closeRaises st = (st, .notConnectedError, false) := by
  simp [sendImage, h]

/-- C9 witness: the fresh, never-connected session. -/
theorem c9_send_requires_connection_witness :
    freshSt.connected = false ∧
    sendImage true false freshSt = (freshSt, .notConnectedError, false) :=
  ⟨rfl, c9_send_requires_connection true false freshSt rfl⟩

/-- C10: a successful `connect` replies to the peer's contact with the
current snapshot, then (when pan/tilt is enabled) initializes the servo
driver, then writes that same snapshot into the hardware via
`write_settings`, and only then opens the frame-transport socket: the
snapshot written to the hardware is exactly the snapshot handed to the
peer at handshake. -/
theorem c10_connect_writes_snapshot (a : String) (cam : Camera)
    (drv : ServoDriver) (st : SessionState)
    (hw : writeSettingsOk st.panTilting cam drv st.settings = true) :
    connect (.contact a) cam drv true st =
      ({ st with
          driverActive := if st.panTilting then true else st.driverActive
          channelOpen := true
          connected := true },
       .ok,
       [Effect.advertised st.camName, .repliedSnapshot st.settings] ++
         (if st.panTilting then [Effect.driverInitialized] else []) ++
         [.wroteSettings st.settings, .socketConnected a st.port]) := by
  cases hpt : st.panTilting <;> rw [hpt] at hw <;> simp [connect, hpt, hw]

/-- C10 witness: connecting the fresh pan/tilt session under the
hardware model produces exactly the reply–init–write–open effect
sequence with the default snapshot throughout. -/
theorem c10_connect_writes_snapshot_witness :
    writeSettingsOk freshSt.panTilting strictCamera okDriver
      freshSt.settings = true ∧
    connect (.contact "10.0.0.2") strictCamera okDriver true freshSt =
      ({ freshSt with
          driverActive := if freshSt.panTilting then true
                          else freshSt.driverActive
          channelOpen := true
          connected := true },
       .ok,
       [Effect.advertised freshSt.camName,
        .repliedSnapshot freshSt.settings] ++
         (if freshSt.panTilting then [Effect.driverInitialized] else []) ++
         [.wroteSettings freshSt.settings,
          .socketConnected "10.0.0.2" freshSt.port]) :=
  ⟨by decide,
   c10_connect_writes_snapshot "10.0.0.2" strictCamera okDriver freshSt
     (by decide)⟩

end PiCam
